import Mathlib

/-!
Verification development for the SpendWell analytical core
(`anomaly_detector.py`, `predictive_analyzer.py`, `database.py`, `config.py`).

The Python source is shallowly embedded:
* timestamps become an explicit `Date`/`Timestamp` structure with proleptic
  Gregorian day ordinals (the same calendar `datetime`/SQLite use);
* monetary amounts and feature values become `ℚ` (the source works in
  IEEE floats; none of the modelled claims depends on rounding noise, and
  exact rationals keep every definition executable);
* the SQLite store becomes a `List Expense`, with `get_user_expenses` /
  `update_anomaly_status` embedded as pure functions on that list;
* the external scikit-learn / Prophet estimators are parameters: the shape
  contracts that decide control flow (`StandardScaler`'s feature-count
  validation) are embedded exactly, while the fitted numeric estimates are
  abstract inputs (`IFModel`, the `pred` argument of the forecaster).
-/

/-! ## Calendar model (Python `datetime` / pandas `.dt` accessors) -/

/-- A calendar date, as in Python `datetime.date`: `month ∈ [1,12]`,
`day ∈ [1, daysInMonth year month]` for well-formed values. -/
structure Date where
  year : ℤ
  month : ℕ
  day : ℕ
deriving DecidableEq

/-- Gregorian leap-year rule (`calendar.isleap`).  (`%` on `ℤ` is the
Euclidean remainder, which agrees with Python `%` for these positive
moduli.) -/
def isLeap (y : ℤ) : Bool :=
  (y % 4 = 0 && y % 100 ≠ 0) || y % 400 = 0

/-- Number of days in a month of a given year (`calendar.monthrange`). -/
def daysInMonth (y : ℤ) (m : ℕ) : ℕ :=
  if m = 2 then (if isLeap y then 29 else 28)
  else if m = 4 then 30
  else if m = 6 then 30
  else if m = 9 then 30
  else if m = 11 then 30
  else 31

/-- Days in the months `1, …, m-1` of year `y`. -/
def monthDaysBefore (y : ℤ) : ℕ → ℕ
  | 0 => 0
  | 1 => 0
  | m + 2 => monthDaysBefore y (m + 1) + daysInMonth y (m + 1)

/-- Proleptic Gregorian day ordinal, as in Python `date.toordinal`:
`0001-01-01` has ordinal 1. -/
def Date.toOrdinal (d : Date) : ℤ :=
  365 * (d.year - 1) + (d.year - 1) / 4 - (d.year - 1) / 100
    + (d.year - 1) / 400 + (monthDaysBefore d.year d.month : ℤ) + (d.day : ℤ)

/-- The next calendar day (`date + timedelta(days=1)`). -/
def Date.succ (d : Date) : Date :=
  if d.day < daysInMonth d.year d.month then ⟨d.year, d.month, d.day + 1⟩
  else if d.month < 12 then ⟨d.year, d.month + 1, 1⟩
  else ⟨d.year + 1, 1, 1⟩

/-- The previous calendar day (`date - timedelta(days=1)`). -/
def Date.pred (d : Date) : Date :=
  if 1 < d.day then ⟨d.year, d.month, d.day - 1⟩
  else if 1 < d.month then ⟨d.year, d.month - 1, daysInMonth d.year (d.month - 1)⟩
  else ⟨d.year - 1, 12, 31⟩

/-- `date + timedelta(days=n)` for `n ≥ 0`. -/
def Date.addDays : Date → ℕ → Date
  | d, 0 => d
  | d, n + 1 => Date.addDays d.succ n

/-- `date - timedelta(days=n)` for `n ≥ 0`. -/
def Date.subDays : Date → ℕ → Date
  | d, 0 => d
  | d, n + 1 => Date.subDays d.pred n

/-- `datetime.replace(day=k)` restricted to the date part. -/
def Date.replaceDay (d : Date) (k : ℕ) : Date :=
  ⟨d.year, d.month, k⟩

/-- A timestamp: a date plus a time of day, minute granularity.  (The
source keeps full `datetime` values; seconds never influence any modelled
claim, and the time of day cancels in every date difference the source
takes.) -/
structure Timestamp where
  date : Date
  hour : ℕ
  minute : ℕ
deriving DecidableEq

/-- Total minutes since the proleptic epoch; chronological comparison of
two timestamps (equivalently, SQLite's lexicographic comparison of
well-formed datetime strings). -/
def Timestamp.absMinutes (t : Timestamp) : ℤ :=
  t.date.toOrdinal * 1440 + (t.hour : ℤ) * 60 + (t.minute : ℤ)

/-- `pandas .dt.dayofweek`: Monday = 0.  `0001-01-01` was a Monday. -/
def dayOfWeek (t : Timestamp) : ℕ :=
  (((t.date.toOrdinal - 1) % 7)).toNat

/-! ## Data model (`database.py` schema, §3 of the spec) -/

/-- A row of the `expenses` relation. -/
structure Expense where
  id : ℤ
  user_id : ℤ
  amount : ℚ
  category : String
  payment_method : String
  timestamp : Timestamp
  is_anomaly : Bool
  anomaly_score : ℚ
deriving DecidableEq

instance : Inhabited Expense :=
  ⟨⟨0, 0, 0, "", "", ⟨⟨1, 1, 1⟩, 0, 0⟩, false, 0⟩⟩

/-- A row of the `user_preferences` relation. -/
structure UserPreferences where
  user_id : ℤ
  monthly_income : Option ℚ
  savings_goal : Option ℚ
  risk_tolerance : Option String
  notification_enabled : Bool
deriving DecidableEq

/-! ## Transaction Store reads and writes (`database.py`) -/

/-- `ExpenseDatabase.get_user_expenses(user_id, days)`: the user's rows
whose timestamp is within the trailing `days`-day window ending at `now`
(SQLite `timestamp >= datetime('now', '-days days')`).  The source also
orders rows newest-first; no modelled claim observes row order, so the
store order is kept. -/
def get_user_expenses (store : List Expense) (uid : ℤ) (now : Timestamp)
    (days : ℕ) : List Expense :=
  store.filter (fun e =>
    decide (e.user_id = uid) &&
    decide (now.absMinutes - (days : ℤ) * 1440 ≤ e.timestamp.absMinutes))

/-- `ExpenseDatabase.update_anomaly_status(expense_id, is_anomaly, score)`:
`UPDATE expenses SET is_anomaly = ?, anomaly_score = ? WHERE id = ?`. -/
def update_anomaly_status (store : List Expense) (expense_id : ℤ)
    (flag : Bool) (score : ℚ) : List Expense :=
  store.map (fun e =>
    if e.id = expense_id then
      { e with is_anomaly := flag, anomaly_score := score }
    else e)

/-! ## Feature Builder (`AnomalyDetector.prepare_features`) -/

/-- The distinct category values of the input set, the one-hot vocabulary
of `pd.get_dummies(df["category"])`.  `get_dummies` sorts its columns;
only column membership and count matter to any modelled claim, so the
first-occurrence order of `dedup` is kept. -/
def catsOf (l : List Expense) : List String :=
  (l.map (fun e => e.category)).dedup

/-- The distinct payment-method values of the input set
(`pd.get_dummies(df["payment_method"])`). -/
def paysOf (l : List Expense) : List String :=
  (l.map (fun e => e.payment_method)).dedup

/-- One row of the feature matrix:
`[amount, hour, day_of_week, day_of_month]` followed by the category
one-hot indicators and the payment-method one-hot indicators.  No entry is
ever missing for a well-formed row, so the source's `fillna(0.0)` is the
identity here. -/
def featureRow (cats pays : List String) (e : Expense) : List ℚ :=
  [e.amount, (e.timestamp.hour : ℚ), (dayOfWeek e.timestamp : ℚ),
    (e.timestamp.date.day : ℚ)]
    ++ cats.map (fun c => if e.category = c then (1 : ℚ) else 0)
    ++ pays.map (fun p => if e.payment_method = p then (1 : ℚ) else 0)

/-- `AnomalyDetector.prepare_features`: one feature row per transaction,
one-hot vocabulary derived from the input set itself. -/
def prepare_features (l : List Expense) : List (List ℚ) :=
  l.map (featureRow (catsOf l) (paysOf l))

/-- Width of the feature matrix built from `l`: `4` base columns plus one
one-hot column per distinct category and per distinct payment method. -/
def featureWidth (l : List Expense) : ℕ :=
  4 + (catsOf l).length + (paysOf l).length

/-! ## StandardScaler (scikit-learn, external library)

Only the scaler's input-validation contract can change the control flow of
`anomaly_detector.py`, and it is embedded exactly: `fit` records the
feature count of the training matrix and `transform` raises `ValueError`
(here `Except.error`) when a later matrix has a different number of
columns; `fit` itself raises on a matrix with no samples.  The affine
standardization `(x - mean)/std` is a fixed invertible per-column map and
is absorbed into the abstract fitted-model parameter `IFModel`, as no
modelled claim observes the standardized magnitudes. -/

structure StandardScaler where
  n_features_in : ℕ
deriving DecidableEq

/-- `StandardScaler.fit_transform`: errors on an empty matrix (sklearn
`Found array with 0 sample(s)`), otherwise records the column count. -/
def scaler_fit_transform (X : List (List ℚ)) :
    Except String (StandardScaler × List (List ℚ)) :=
  if X.isEmpty then .error "Found array with 0 sample(s)"
  else .ok (⟨(X.headD []).length⟩, X)

/-- `StandardScaler.transform`: errors when the matrix width differs from
the width seen at fit time (sklearn
`X has n features, but StandardScaler is expecting m features as input`). -/
def StandardScaler.transform (s : StandardScaler) (X : List (List ℚ)) :
    Except String (List (List ℚ)) :=
  if X.all (fun r => r.length = s.n_features_in) then .ok X
  else .error "X has a different number of features than during fitting"

/-! ## IsolationForest (scikit-learn, external library)

The fitted estimator is an abstract parameter: `predict train X` are the
`±1` labels of the rows of `X` under the forest fitted on `train`, and
`score_samples train X` the corresponding normality scores.  Both return
one value per scored row (the numpy shape contract). -/

structure IFModel where
  predict : List (List ℚ) → List (List ℚ) → List ℤ
  score_samples : List (List ℚ) → List (List ℚ) → List ℚ
  predict_length : ∀ train X, (predict train X).length = X.length
  score_length : ∀ train X, (score_samples train X).length = X.length

/-! ## Explanation Generator (`AnomalyDetector._explain`) -/

/-- `⌊q⌋` on rationals, executable (`ℤ` division is Euclidean, which is
the floor for the positive denominator). -/
def floorQ (q : ℚ) : ℤ :=
  q.num / (q.den : ℤ)

/-- Two-digit zero padding. -/
def pad2 (n : ℕ) : String :=
  if n < 10 then "0" ++ toString n else toString n

/-- Python `f"{q:.2f}"` on the rationals reachable in this development:
fixed two-decimal rendering.  (CPython rounds exact half cents to even;
the two never differ on any value these claims evaluate, and the source's
binary floats carry no exact half cents for them either.) -/
def format2 (q : ℚ) : String :=
  let c : ℕ := (floorQ (|q| * 100 + 1 / 2)).toNat
  (if q < 0 then "-" else "") ++ toString (c / 100) ++ "." ++ pad2 (c % 100)

/-- The "significantly higher than your average" message of `_explain`. -/
def higherMsg (cat : String) (amt avg : ℚ) : String :=
  "This " ++ cat ++ " expense (₹" ++ format2 amt ++
    ") is significantly higher than your average (₹" ++ format2 avg ++ ")"

/-- The "unusually low" message of `_explain`. -/
def lowerMsg (cat : String) (amt : ℚ) : String :=
  "This " ++ cat ++ " expense (₹" ++ format2 amt ++
    ") is unusually low for this category"

/-- The generic fallback message of `_explain`. -/
def genericMsg : String :=
  "This expense pattern is unusual based on your history"

/-- `AnomalyDetector._explain(expense, hist)`.  The source compares
`amt > avg + 2*std` and `amt < avg - 2*std` with
`std = hist.amount.std(ddof=0) = sqrt(var)`; to stay in exact arithmetic
the comparisons are written in the equivalent squared form: for
`s = sqrt(v) ≥ 0`, `a > b + 2s ↔ a > b ∧ (a-b)^2 > 4v`, and
`a < b - 2s ↔ a < b ∧ (b-a)^2 > 4v`. -/
def explain (expense : Expense) (hist : List Expense) : String :=
  let amt := expense.amount
  let cat := expense.category
  let cat_hist := hist.filter (fun e => decide (e.category = cat))
  if 3 ≤ cat_hist.length then
    let amts := cat_hist.map (fun e => e.amount)
    let avg := amts.sum / (amts.length : ℚ)
    let var := (amts.map (fun a => (a - avg) ^ 2)).sum / (amts.length : ℚ)
    if avg < amt ∧ 4 * var < (amt - avg) ^ 2 then higherMsg cat amt avg
    else if amt < avg ∧ 4 * var < (avg - amt) ^ 2 then lowerMsg cat amt
    else genericMsg
  else genericMsg

/-! ## Anomaly Scorer (`AnomalyDetector`) -/

/-- The insufficient-data message of `check_new_expense`. -/
def notEnoughMsg : String :=
  "Not enough data for anomaly detection"

/-- The missing-target message of `check_new_expense`. -/
def notFoundMsg : String :=
  "Expense not found"

/-- `AnomalyDetector.detect_anomalies(user_id)`.  Returns the flagged
subset together with the store after the per-row
`update_anomaly_status` writeback; an uncaught library exception is
`Except.error` (none is reachable: the guarded branch fits on at least 10
rows). -/
def detect_anomalies (M : IFModel) (now : Timestamp) (store : List Expense)
    (uid : ℤ) : Except String (List Expense × List Expense) :=
  let df := get_user_expenses store uid now 90
  if df.length < 10 then .ok ([], store)
  else
    let X := prepare_features df
    match scaler_fit_transform X with
    | .error e => .error e
    | .ok (_, Xs) =>
      let pred := M.predict Xs Xs
      let scores := M.score_samples Xs Xs
      let labelled := (df.zip (pred.zip scores)).map (fun es =>
        { es.1 with is_anomaly := es.2.1 = -1, anomaly_score := -es.2.2 })
      let store' := labelled.foldl (fun st r =>
        update_anomaly_status st r.id r.is_anomaly r.anomaly_score) store
      .ok (labelled.filter (fun r => r.is_anomaly), store')

/-- `AnomalyDetector.check_new_expense(user_id, expense_id)`.  Returns the
`(is_anomaly, score, explanation)` triple together with the store after
writeback; an uncaught library exception (the scaler's feature-count
validation, or fitting on no rows) is `Except.error`. -/
def check_new_expense (M : IFModel) (now : Timestamp) (store : List Expense)
    (uid eid : ℤ) : Except String ((Bool × ℚ × String) × List Expense) :=
  let df := get_user_expenses store uid now 90
  if df.length < 10 then .ok ((false, 0, notEnoughMsg), store)
  else
    let new_df := df.filter (fun e => decide (e.id = eid))
    if new_df.isEmpty then .ok ((false, 0, notFoundMsg), store)
    else
      let hist := df.filter (fun e => decide (¬ e.id = eid))
      let X_hist := prepare_features hist
      let X_new := prepare_features new_df
      match scaler_fit_transform X_hist with
      | .error e => .error e
      | .ok (sc, Xs_hist) =>
        match sc.transform X_new with
        | .error e => .error e
        | .ok Xs_new =>
          let pred := (M.predict Xs_hist Xs_new).headD 1
          let score := -((M.score_samples Xs_hist Xs_new).headD 0)
          let is_anom := pred = -1
          let store' := update_anomaly_status store eid is_anom score
          let explanation := explain (new_df.headD default) hist
          .ok ((is_anom, score, explanation), store')

/-! ## Isolation-forest anomaly score (claim C5)

scikit-learn's `IsolationForest.score_samples(x)` is the opposite of the
anomaly score of the original isolation-forest paper:
`score_samples(x) = -s(x) = -2 ^ (-E / c)`, where `E ≥ 0` is the mean
path length of `x` over the trees and `c > 0` the average-path-length
normalizer `c(n)`.  Lines 48 and 76 of `anomaly_detector.py` store the
negation of `score_samples` as the anomaly score. -/

/-- `IsolationForest.score_samples` as a function of the mean path length
`E` and the normalizer `c`. -/
noncomputable def if_score_samples (E c : ℝ) : ℝ :=
  -(2 ^ (-(E / c)) : ℝ)

/-- The anomaly score the source stores: the negation of `score_samples`
(`anomaly_detector.py` line 48 for the batch column, line 76 for the
incremental check). -/
noncomputable def anomaly_score_val (E c : ℝ) : ℝ :=
  -(if_score_samples E c)

/-- The `anomaly_score` column of `detect_anomalies` for a batch of rows
with mean path lengths `Es` under a common normalizer `c`
(`df["anomaly_score"] = -scores`, line 48). -/
noncomputable def anomaly_score_column (Es : List ℝ) (c : ℝ) : List ℝ :=
  Es.map (fun E => anomaly_score_val E c)

/-! ## Forecasting Engine (`PredictiveAnalyzer`) -/

/-- `config.FORECAST_DAYS`. -/
def FORECAST_DAYS : ℕ := 30

/-- `config.MIN_DATA_POINTS`. -/
def MIN_DATA_POINTS : ℕ := 30

/-- A `ForecastPoint` (§3 of the spec); the calendar date is kept as its
day ordinal (the source renders it `"%Y-%m-%d"`). -/
structure ForecastPoint where
  date : ℤ
  amount : ℚ
  lower_bound : ℚ
  upper_bound : ℚ
deriving DecidableEq

/-- The result record of `forecast_expenses_prophet`. -/
structure ForecastResult where
  success : Bool
  message : String
  forecasts : List ForecastPoint
  total_predicted : ℚ
deriving DecidableEq

/-- `pandas Series.max()` over a list of day ordinals (`ts["ds"].max()`). -/
def seriesMax : List ℤ → ℤ
  | [] => 0
  | x :: xs => xs.foldl max x

/-- The distinct transaction dates of the input rows, the keys of
`groupby("date")` in `_daily_series`.  pandas sorts group keys; no
modelled claim observes key order, so first-occurrence order is kept. -/
def datesOf (l : List Expense) : List ℤ :=
  (l.map (fun e => e.timestamp.date.toOrdinal)).dedup

/-- `PredictiveAnalyzer._daily_series`: daily totals `(ds, y)`, one row
per distinct transaction date. -/
def daily_series (l : List Expense) : List (ℤ × ℚ) :=
  (datesOf l).map (fun d =>
    (d, ((l.filter (fun e => decide (e.timestamp.date.toOrdinal = d))).map
      (fun e => e.amount)).sum))

/-- Prophet's `make_future_dataframe(periods)` with its default
`include_history=True` and daily frequency: the model's training dates
followed by the `periods` consecutive days after the last training
date. -/
def make_future_dataframe (histDates : List ℤ) (periods : ℕ) : List ℤ :=
  histDates ++ (List.range periods).map (fun (i : ℕ) => seriesMax histDates + (i : ℤ) + 1)

/-- One output forecast point of `forecast_expenses_prophet`: the point
estimate and both bounds clipped at zero (`max(0.0, ...)`). -/
def mkForecastPoint (d : ℤ) (r : ℚ × ℚ × ℚ) : ForecastPoint :=
  ⟨d, max 0 r.1, max 0 r.2.1, max 0 r.2.2⟩

/-- `PredictiveAnalyzer.forecast_expenses_prophet(user_id)`.  The fitted
Prophet model is the abstract parameter `pred`, giving
`(yhat, yhat_lower, yhat_upper)` for each date of the future frame; the
`save_forecast` writeback is an append the claims do not observe. -/
def forecast_expenses_prophet (pred : ℤ → ℚ × ℚ × ℚ) (now : Timestamp)
    (store : List Expense) (uid : ℤ) : ForecastResult :=
  let df := get_user_expenses store uid now 90
  if df.length < MIN_DATA_POINTS then
    ⟨false, "Not enough data for forecasting", [], 0⟩
  else
    let ts := daily_series df
    let histDates := ts.map (fun r => r.1)
    let future := make_future_dataframe histDates FORECAST_DAYS
    let fcst := future.map (fun d => (d, pred d))
    let future_fcst := fcst.filter (fun r => decide (seriesMax histDates < r.1))
    let out := future_fcst.map (fun r => mkForecastPoint r.1 r.2)
    ⟨true, "", out, (out.map (fun f => f.amount)).sum⟩

/-! ## Budget Projector (`PredictiveAnalyzer.detect_budget_overrun`) -/

/-- The result record of `detect_budget_overrun`. -/
structure BudgetProjection where
  current_spending : ℚ
  projected_total : ℚ
  budget_limit : ℚ
  will_exceed : Bool
  excess_amount : ℚ
  days_remaining : ℤ
deriving DecidableEq

/-- The source's last-day-of-month computation
(`(today.replace(day=28) + timedelta(days=4)).replace(day=1) -
timedelta(days=1)`), on the date part (`timedelta` and `replace(day=...)`
leave the time of day unchanged). -/
def lastDayTrick (d : Date) : Date :=
  (((d.replaceDay 28).addDays 4).replaceDay 1).subDays 1

/-- `PredictiveAnalyzer.detect_budget_overrun(user_id)`.  `prefs` is the
row `get_user_preferences` returns.  Python's
`not prefs.get("monthly_income")` is true for a missing income and for an
income of exactly `0`.  `(last_day - today).days` is the day-ordinal
difference, the time of day cancelling. -/
def detect_budget_overrun (prefs : Option UserPreferences) (now : Timestamp)
    (store : List Expense) (uid : ℤ) : Option BudgetProjection :=
  match prefs with
  | none => none
  | some p =>
    match p.monthly_income with
    | none => none
    | some inc =>
      if inc = 0 then none
      else
        let df := get_user_expenses store uid now 30
        let current_total := (df.map (fun e => e.amount)).sum
        let days_passed : ℕ := max 1 now.date.day
        let remaining := (lastDayTrick now.date).toOrdinal - now.date.toOrdinal
        let daily_avg := current_total / (days_passed : ℚ)
        let projected := current_total + daily_avg * (remaining : ℚ)
        let budget_limit := inc * (1 / 2)
        some ⟨current_total, projected, budget_limit,
          decide (budget_limit < projected),
          max 0 (projected - budget_limit), remaining⟩

/-- Modelled from the spec's words for the refinement comparison of claim
C3: "current_spending [is] the sum of the user's transactions dated within
the current calendar month (spend-to-date since the first of the
month)". -/
def calendar_month_spend (now : Timestamp) (store : List Expense)
    (uid : ℤ) : ℚ :=
  ((store.filter (fun e =>
    decide (e.user_id = uid) &&
    decide (e.timestamp.date.year = now.date.year) &&
    decide (e.timestamp.date.month = now.date.month) &&
    decide (e.timestamp.absMinutes ≤ now.absMinutes))).map
      (fun e => e.amount)).sum

/-! ## Concrete instances used by witnesses and counterexamples -/

/-- A concrete fitted-model stand-in: labels every row `1` (not
anomalous), normality score `-1/2` for every row. -/
def constModel : IFModel where
  predict := fun _ X => X.map (fun _ => 1)
  score_samples := fun _ X => X.map (fun _ => -(1 / 2 : ℚ))
  predict_length := by intro train X; simp
  score_length := by intro train X; simp

/-- A reference "now": year 2, March 10, 12:00. -/
def egNow : Timestamp := ⟨⟨2, 3, 10⟩, 12, 0⟩

/-- Expense `i` of the reference user: ₹100 of `food` by `card` on
March `i` of year 2. -/
def egExp (i : ℕ) : Expense :=
  ⟨(i : ℤ), 1, 100, "food", "card", ⟨⟨2, 3, i⟩, 9, 0⟩, false, 0⟩

/-- Ten transactions of user 1, ids 1–10, all inside the 90-day window of
`egNow`; one single category and payment method. -/
def egStore10 : List Expense :=
  [egExp 1, egExp 2, egExp 3, egExp 4, egExp 5,
   egExp 6, egExp 7, egExp 8, egExp 9, egExp 10]

/-- `egStore10` with the first history row's category changed, so the
history one-hot vocabulary has two categories while the target row still
has one. -/
def egStoreMix : List Expense :=
  [{ egExp 1 with category := "travel" }, egExp 2, egExp 3, egExp 4, egExp 5,
   egExp 6, egExp 7, egExp 8, egExp 9, egExp 10]

/-- "Now" for the budget example: year 2, April 10 (a 30-day month),
12:00. -/
def c3Now : Timestamp := ⟨⟨2, 4, 10⟩, 12, 0⟩

/-- Preferences with a declared monthly income of 60000. -/
def c3Prefs : UserPreferences := ⟨1, some 60000, none, none, true⟩

/-- Spend-to-date of 20000 within April of year 2. -/
def c3Store : List Expense :=
  [⟨1, 1, 10000, "rent", "card", ⟨⟨2, 4, 2⟩, 9, 0⟩, false, 0⟩,
   ⟨2, 1, 10000, "food", "card", ⟨⟨2, 4, 5⟩, 9, 0⟩, false, 0⟩]

/-- A single ₹100 transaction dated February 25 of year 2: inside the
trailing 30-day window of `egNow` (March 10) but in the previous calendar
month. -/
def c3xStore : List Expense :=
  [⟨1, 1, 100, "food", "card", ⟨⟨2, 2, 25⟩, 12, 0⟩, false, 0⟩]

/-- Four ₹100 `food` transactions: category mean 100, population σ 0. -/
def c4Hist : List Expense :=
  [⟨1, 1, 100, "food", "card", ⟨⟨2, 3, 1⟩, 9, 0⟩, false, 0⟩,
   ⟨2, 1, 100, "food", "card", ⟨⟨2, 3, 2⟩, 9, 0⟩, false, 0⟩,
   ⟨3, 1, 100, "food", "card", ⟨⟨2, 3, 3⟩, 9, 0⟩, false, 0⟩,
   ⟨4, 1, 100, "food", "card", ⟨⟨2, 3, 4⟩, 9, 0⟩, false, 0⟩]

/-- A new `food` expense of a given amount. -/
def c4Target (amt : ℚ) : Expense :=
  ⟨5, 1, amt, "food", "card", ⟨⟨2, 3, 10⟩, 9, 0⟩, false, 0⟩

/-- Transaction `i+1` of user 1: ₹10 on January `i+1` of year 2. -/
def c7Exp (i : ℕ) : Expense :=
  ⟨(i : ℤ) + 1, 1, 10, "food", "card", ⟨⟨2, 1, i + 1⟩, 9, 0⟩, false, 0⟩

/-- Thirty transactions on thirty distinct days, all inside the 90-day
window of `egNow`. -/
def c7Store : List Expense :=
  [c7Exp 0, c7Exp 1, c7Exp 2, c7Exp 3, c7Exp 4, c7Exp 5, c7Exp 6, c7Exp 7,
   c7Exp 8, c7Exp 9, c7Exp 10, c7Exp 11, c7Exp 12, c7Exp 13, c7Exp 14,
   c7Exp 15, c7Exp 16, c7Exp 17, c7Exp 18, c7Exp 19, c7Exp 20, c7Exp 21,
   c7Exp 22, c7Exp 23, c7Exp 24, c7Exp 25, c7Exp 26, c7Exp 27, c7Exp 28,
   c7Exp 29]

/-- A concrete fitted Prophet stand-in: point estimate 1 with raw interval
`[0, 2]` everywhere. -/
def c7Pred : ℤ → ℚ × ℚ × ℚ := fun _ => (1, 0, 2)

deriving instance DecidableEq for Except

set_option maxRecDepth 4000

/-! ## Helper lemmas -/

theorem prepare_features_length (l : List Expense) :
    (prepare_features l).length = l.length := by
  simp [prepare_features]

theorem featureRow_length (cats pays : List String) (e : Expense) :
    (featureRow cats pays e).length = 4 + cats.length + pays.length := by
  simp [featureRow]
  omega

theorem mem_prepare_features_length {l : List Expense} {r : List ℚ}
    (hr : r ∈ prepare_features l) : r.length = featureWidth l := by
  obtain ⟨e, _, rfl⟩ := List.mem_map.mp hr
  simp [featureRow_length, featureWidth]

theorem headD_prepare_features_length {l : List Expense} (h : l ≠ []) :
    ((prepare_features l).headD []).length = featureWidth l := by
  cases l with
  | nil => exact absurd rfl h
  | cons e t =>
    simp only [prepare_features, List.map_cons, List.headD_cons]
    simp [featureRow_length, featureWidth]

/-! ## Claim C10 -/

/-- C10: `detect_budget_overrun` yields no projection when no preference
row exists, when `monthly_income` is absent, and equally when the stored
`monthly_income` is exactly `0` (Python's `not prefs.get("monthly_income")`
is true for `0.0`): a zero declared income is treated the same as no
income. -/
theorem c10_zero_income_no_projection (now : Timestamp) (store : List Expense)
    (uid : ℤ) (p : UserPreferences) :
    detect_budget_overrun none now store uid = none ∧
    (p.monthly_income = none → detect_budget_overrun (some p) now store uid = none) ∧
    (p.monthly_income = some 0 → detect_budget_overrun (some p) now store uid = none) := by
  refine ⟨rfl, fun h => ?_, fun h => ?_⟩ <;> simp [detect_budget_overrun, h]

/-- Witness for C10 at concrete inputs. -/
theorem c10_zero_income_no_projection_witness :
    detect_budget_overrun none egNow [] 1 = none ∧
    detect_budget_overrun (some ⟨1, none, none, none, true⟩) egNow [] 1 = none ∧
    detect_budget_overrun (some ⟨1, some 0, none, none, true⟩) egNow [] 1 = none :=
  ⟨(c10_zero_income_no_projection egNow [] 1 ⟨1, none, none, none, true⟩).1,
   (c10_zero_income_no_projection egNow [] 1 ⟨1, none, none, none, true⟩).2.1 rfl,
   (c10_zero_income_no_projection egNow [] 1 ⟨1, some 0, none, none, true⟩).2.2 rfl⟩

/-! ## Claim C8 -/

/-- C8: with fewer than 10 transactions of the user inside the 90-day
lookback window, `detect_anomalies` returns the empty frame and leaves the
store untouched (no writeback), and `check_new_expense` reports no
anomaly: `(false, 0, "Not enough data for anomaly detection")`, store
untouched. -/
theorem c8_cold_start (M : IFModel) (now : Timestamp) (store : List Expense)
    (uid eid : ℤ)
    (h : (get_user_expenses store uid now 90).length < 10) :
    detect_anomalies M now store uid = .ok ([], store) ∧
    check_new_expense M now store uid eid = .ok ((false, 0, notEnoughMsg), store) := by
  constructor
  · simp [detect_anomalies, h]
  · simp [check_new_expense, h]

/-- Witness for C8: the empty store. -/
theorem c8_cold_start_witness :
    detect_anomalies constModel egNow [] 1 = .ok ([], []) ∧
    check_new_expense constModel egNow [] 1 1 = .ok ((false, 0, notEnoughMsg), []) :=
  c8_cold_start constModel egNow [] 1 1 (by simp [get_user_expenses])

/-! ## Claim C5 -/

/-- C5: every anomaly score the detector stores or returns — the negation
of the isolation forest's path-length-based normality score
`score_samples = -2 ^ (-E/c)` — is nonnegative, with no shift or clip
needed: the underlying statistic is never positive. -/
theorem c5_scores_nonneg (Es : List ℝ) (c E : ℝ) :
    (∀ s ∈ anomaly_score_column Es c, 0 ≤ s) ∧ 0 ≤ anomaly_score_val E c := by
  have hval : ∀ E' : ℝ, 0 ≤ anomaly_score_val E' c := by
    intro E'
    simp only [anomaly_score_val, if_score_samples, neg_neg]
    exact (Real.rpow_pos_of_pos (by norm_num) _).le
  refine ⟨fun s hs => ?_, hval E⟩
  obtain ⟨E', -, rfl⟩ := List.mem_map.mp hs
  exact hval E'

/-- Witness for C5 at a concrete batch. -/
theorem c5_scores_nonneg_witness :
    0 ≤ anomaly_score_val 0 1 :=
  (c5_scores_nonneg [0] 1 0).1 (anomaly_score_val 0 1)
    (List.mem_map.mpr ⟨0, List.mem_singleton.mpr rfl, rfl⟩)

/-! ## Claim C4 -/

/-- Counterexample to C4 as stated: on the category history
`[100, 100, 100, 100]` (mean 100, population σ 0) the Explanation
Generator DOES return the "higher than usual" message for the amount
`100.01`, because the source's strict comparison `amt > avg + 2*std`
degenerates to `amt > avg` when σ = 0. -/
theorem c4_sigma_zero_counterexample :
    explain (c4Target (10001 / 100)) c4Hist =
      higherMsg "food" (10001 / 100) 100 ∧
    higherMsg "food" (10001 / 100) 100 =
      "This food expense (₹100.01) is significantly higher than your average (₹100.00)" ∧
    higherMsg "food" (10001 / 100) 100 ≠ genericMsg ∧
    higherMsg "food" (10001 / 100) 100 ≠ lowerMsg "food" (10001 / 100) := by
  refine ⟨?_, ?_, ?_, ?_⟩ <;> with_unfolding_all decide

/-- C4 amended: on the `[100, 100, 100, 100]` history (mean 100, σ = 0)
the "higher than usual" branch fires for EVERY amount strictly above the
mean — the comparison is the strict `amt > mean + 2σ`, which at σ = 0 is
`amt > mean`, so `100.01` does trigger it — and the amount `500` triggers
it as the claim says. -/
theorem c4_sigma_zero_amended (amt : ℚ) (h : 100 < amt) :
    explain (c4Target amt) c4Hist = higherMsg "food" amt 100 ∧
    explain (c4Target 500) c4Hist = higherMsg "food" 500 100 := by
  constructor
  · have hvar : 0 < (amt - 100) ^ 2 := pow_pos (sub_pos.mpr h) 2
    norm_num [explain, c4Target, c4Hist]
    intro h2
    exact absurd hvar (not_lt.mpr (h2 h))
  · norm_num [explain, c4Target, c4Hist]

/-- Witness for the amended C4 at amount 500. -/
theorem c4_sigma_zero_amended_witness :
    explain (c4Target 500) c4Hist = higherMsg "food" 500 100 ∧
    explain (c4Target 500) c4Hist = higherMsg "food" 500 100 :=
  c4_sigma_zero_amended 500 (by norm_num)

/-! ## Claim C2 -/

/-- Counterexample to C2 as stated: `egStore10` puts exactly 10
transactions of the user in the window, one of which (id 10) is the
target, so the target has only 9 prior transactions — yet
`check_new_expense` does not report "insufficient data": the source gates
on `len(df) < 10` where `df` includes the target, so it proceeds to score
(returning the generic explanation with score 1/2 here). -/
theorem c2_nine_prior_counterexample :
    (get_user_expenses egStore10 1 egNow 90).length = 10 ∧
    ((get_user_expenses egStore10 1 egNow 90).filter
        (fun e => decide (e.id = (10 : ℤ)))).length = 1 ∧
    check_new_expense constModel egNow egStore10 1 10 =
      .ok ((false, 1 / 2, genericMsg), update_anomaly_status egStore10 10 false (1 / 2)) ∧
    genericMsg ≠ notEnoughMsg ∧ (1 / 2 : ℚ) ≠ 0 := by
  refine ⟨?_, ?_, ?_, ?_, ?_⟩
  · with_unfolding_all decide
  · with_unfolding_all decide
  · norm_num [check_new_expense, get_user_expenses, egStore10, egExp, egNow,
      prepare_features, featureRow, catsOf, paysOf, dayOfWeek, scaler_fit_transform,
      StandardScaler.transform, constModel, update_anomaly_status, explain,
      format2, floorQ, pad2, genericMsg, notEnoughMsg, notFoundMsg,
      Timestamp.absMinutes, Date.toOrdinal, monthDaysBefore, daysInMonth, isLeap]
  · with_unfolding_all decide
  · norm_num

/-- C2 amended: the "insufficient data" result is returned exactly when
the 90-day window holds fewer than 10 transactions INCLUDING the one being
checked — i.e. fewer than 9 prior transactions — not fewer than 10 prior;
with exactly 10 in the window (9 prior, `egStore10`), the check proceeds
to score instead. -/
theorem c2_insufficiency_gate_amended (M : IFModel) (now : Timestamp)
    (store : List Expense) (uid eid : ℤ)
    (h : (get_user_expenses store uid now 90).length < 10) :
    check_new_expense M now store uid eid = .ok ((false, 0, notEnoughMsg), store) ∧
    check_new_expense constModel egNow egStore10 1 10 =
      .ok ((false, 1 / 2, genericMsg), update_anomaly_status egStore10 10 false (1 / 2)) := by
  constructor
  · simp [check_new_expense, h]
  · norm_num [check_new_expense, get_user_expenses, egStore10, egExp, egNow,
      prepare_features, featureRow, catsOf, paysOf, dayOfWeek, scaler_fit_transform,
      StandardScaler.transform, constModel, update_anomaly_status, explain,
      format2, floorQ, pad2, genericMsg, notEnoughMsg, notFoundMsg,
      Timestamp.absMinutes, Date.toOrdinal, monthDaysBefore, daysInMonth, isLeap]

/-- Witness for the amended C2: an empty window reports insufficient
data. -/
theorem c2_insufficiency_gate_amended_witness :
    check_new_expense constModel egNow [] 1 1 = .ok ((false, 0, notEnoughMsg), []) ∧
    check_new_expense constModel egNow egStore10 1 10 =
      .ok ((false, 1 / 2, genericMsg), update_anomaly_status egStore10 10 false (1 / 2)) :=
  c2_insufficiency_gate_amended constModel egNow [] 1 1 (by simp [get_user_expenses])

/-! ## Claim C3 -/

/-- Two dates in the same month differ in ordinal by their day
difference. -/
theorem toOrdinal_sub_same_month (y : ℤ) (m : ℕ) (a b : ℕ) :
    (Date.mk y m a).toOrdinal - (Date.mk y m b).toOrdinal = (a : ℤ) - (b : ℤ) := by
  simp [Date.toOrdinal]

/-- The source's `replace(day=28) + 4 days, replace(day=1) - 1 day` trick
indeed computes the last day of the current month, for every month and
year. -/
theorem lastDayTrick_eq (y : ℤ) (m : ℕ) (hm1 : 1 ≤ m) (hm2 : m ≤ 12) (dday : ℕ) :
    lastDayTrick ⟨y, m, dday⟩ = ⟨y, m, daysInMonth y m⟩ := by
  interval_cases m <;>
    rcases Bool.eq_false_or_eq_true (isLeap y) with hL | hL <;>
      simp [lastDayTrick, Date.replaceDay, Date.addDays, Date.succ, Date.subDays,
        Date.pred, daysInMonth, hL]

/-- Counterexample to C3 as stated: a ₹100 transaction dated February 25
(year 2) lies inside the trailing 30-day window of March 10 but in the
previous calendar month, and `detect_budget_overrun` counts it:
`current_spending = 100` while the calendar-month spend-to-date is `0`.
`current_spending` is therefore not "the sum of the user's transactions
dated within the current calendar month". -/
theorem c3_calendar_month_counterexample :
    (detect_budget_overrun (some c3Prefs) egNow c3xStore 1).map
      (fun r => r.current_spending) = some 100 ∧
    calendar_month_spend egNow c3xStore 1 = 0 ∧ (100 : ℚ) ≠ 0 := by
  refine ⟨?_, ?_, by norm_num⟩
  · norm_num [detect_budget_overrun, c3Prefs, egNow, c3xStore, get_user_expenses,
      Timestamp.absMinutes, Date.toOrdinal, monthDaysBefore, daysInMonth, isLeap,
      lastDayTrick, Date.replaceDay, Date.addDays, Date.succ, Date.pred, Date.subDays]
  · norm_num [calendar_month_spend, egNow, c3xStore]

/-- C3 amended: `current_spending` is the sum over the TRAILING 30-DAY
window (`get_user_expenses(user_id, days=30)`), not the calendar month;
it is divided by the days elapsed in the month (`max 1 day`) and linearly
extrapolated over the remaining days, which the last-day-of-month
arithmetic makes exactly `daysInMonth - day`; `budget_limit` is half the
declared income, `will_exceed` the strict comparison and `excess_amount`
the clipped difference.  (The claim's numeric example holds: see the
witness, where all spend lies inside both the window and the month.) -/
theorem c3_budget_projection_amended (p : UserPreferences) (inc : ℚ)
    (now : Timestamp) (store : List Expense) (uid : ℤ)
    (hinc : p.monthly_income = some inc) (h0 : ¬ inc = 0)
    (hm1 : 1 ≤ now.date.month) (hm2 : now.date.month ≤ 12) :
    detect_budget_overrun (some p) now store uid =
      some { current_spending := ((get_user_expenses store uid now 30).map (fun e => e.amount)).sum,
             projected_total := ((get_user_expenses store uid now 30).map (fun e => e.amount)).sum +
               ((get_user_expenses store uid now 30).map (fun e => e.amount)).sum /
                 ((max 1 now.date.day : ℕ) : ℚ) *
                 ((((daysInMonth now.date.year now.date.month : ℤ) - (now.date.day : ℤ)) : ℤ) : ℚ),
             budget_limit := inc * (1 / 2),
             will_exceed := decide (inc * (1 / 2) <
               ((get_user_expenses store uid now 30).map (fun e => e.amount)).sum +
               ((get_user_expenses store uid now 30).map (fun e => e.amount)).sum /
                 ((max 1 now.date.day : ℕ) : ℚ) *
                 ((((daysInMonth now.date.year now.date.month : ℤ) - (now.date.day : ℤ)) : ℤ) : ℚ)),
             excess_amount := max 0
               (((get_user_expenses store uid now 30).map (fun e => e.amount)).sum +
                ((get_user_expenses store uid now 30).map (fun e => e.amount)).sum /
                 ((max 1 now.date.day : ℕ) : ℚ) *
                 ((((daysInMonth now.date.year now.date.month : ℤ) - (now.date.day : ℤ)) : ℤ) : ℚ) -
                inc * (1 / 2)),
             days_remaining := (daysInMonth now.date.year now.date.month : ℤ) - (now.date.day : ℤ) } := by
  obtain ⟨⟨yy, mm, dd⟩, hh, mi⟩ := now
  simp only [detect_budget_overrun, hinc, if_neg h0]
  rw [lastDayTrick_eq yy mm hm1 hm2 dd, toOrdinal_sub_same_month]

/-- Witness for the amended C3, which is exactly the claim's numeric
example: income 60000, spend-to-date 20000 on day 10 of the 30-day month
April ⇒ projected 60000, limit 30000, `will_exceed`, excess 30000,
20 days remaining. -/
theorem c3_budget_projection_amended_witness :
    detect_budget_overrun (some c3Prefs) c3Now c3Store 1 =
      some ⟨20000, 60000, 30000, true, 30000, 20⟩ :=
  (c3_budget_projection_amended c3Prefs 60000 c3Now c3Store 1 rfl (by norm_num)
      (by norm_num [c3Now]) (by norm_num [c3Now])).trans
    (by norm_num [get_user_expenses, c3Store, c3Now, Timestamp.absMinutes,
      Date.toOrdinal, monthDaysBefore, daysInMonth, isLeap])

/-! ## Claim C6 -/

/-- C6: every emitted `ForecastPoint` has all three of point estimate,
lower bound and upper bound nonnegative (the source clips each at zero),
and the clipped values stay ordered
`lower_bound ≤ predicted_amount ≤ upper_bound` whenever the raw model
interval contains the raw point estimate (the Prophet contract). -/
theorem c6_forecast_point_bounds (pred : ℤ → ℚ × ℚ × ℚ) (now : Timestamp)
    (store : List Expense) (uid : ℤ)
    (hord : ∀ d : ℤ, (pred d).2.1 ≤ (pred d).1 ∧ (pred d).1 ≤ (pred d).2.2) :
    ∀ p ∈ (forecast_expenses_prophet pred now store uid).forecasts,
      0 ≤ p.amount ∧ 0 ≤ p.lower_bound ∧ 0 ≤ p.upper_bound ∧
      p.lower_bound ≤ p.amount ∧ p.amount ≤ p.upper_bound := by
  intro p hp
  simp only [forecast_expenses_prophet] at hp
  by_cases hlen : (get_user_expenses store uid now 90).length < MIN_DATA_POINTS
  · rw [if_pos hlen] at hp
    simp at hp
  · rw [if_neg hlen] at hp
    simp only [List.mem_map] at hp
    obtain ⟨r, hr, rfl⟩ := hp
    obtain ⟨hr1, -⟩ := List.mem_filter.mp hr
    obtain ⟨d, -, rfl⟩ := List.mem_map.mp hr1
    simp only [mkForecastPoint]
    exact ⟨le_max_left 0 _, le_max_left 0 _, le_max_left 0 _,
      max_le_max le_rfl (hord d).1, max_le_max le_rfl (hord d).2⟩

/-- Witness for C6 at a concrete forecast point of a concrete 30-day
run. -/
theorem c6_forecast_point_bounds_witness :
    0 ≤ (⟨396, 1, 0, 2⟩ : ForecastPoint).amount ∧
    0 ≤ (⟨396, 1, 0, 2⟩ : ForecastPoint).lower_bound ∧
    0 ≤ (⟨396, 1, 0, 2⟩ : ForecastPoint).upper_bound ∧
    (⟨396, 1, 0, 2⟩ : ForecastPoint).lower_bound ≤ (⟨396, 1, 0, 2⟩ : ForecastPoint).amount ∧
    (⟨396, 1, 0, 2⟩ : ForecastPoint).amount ≤ (⟨396, 1, 0, 2⟩ : ForecastPoint).upper_bound :=
  c6_forecast_point_bounds c7Pred egNow c7Store 1
    (fun _ => ⟨by norm_num [c7Pred], by norm_num [c7Pred]⟩)
    ⟨396, 1, 0, 2⟩ (by with_unfolding_all decide)

/-! ## Claim C7 -/

/-- The fold implementing `pandas Series.max` dominates its initial
value. -/
theorem foldl_max_init (l : List ℤ) : ∀ a : ℤ, a ≤ l.foldl max a := by
  induction l with
  | nil => intro a; simp
  | cons y ys ih => intro a; exact le_trans (le_max_left a y) (ih (max a y))

/-- The fold implementing `pandas Series.max` dominates every element. -/
theorem foldl_max_mem (l : List ℤ) : ∀ a x, x ∈ l → x ≤ l.foldl max a := by
  induction l with
  | nil => intro a x hx; cases hx
  | cons y ys ih =>
    intro a x hx
    rcases List.mem_cons.mp hx with rfl | hx
    · exact le_trans (le_max_right a x) (foldl_max_init ys (max a x))
    · exact ih (max a y) x hx

/-- Every list element is at most `seriesMax`. -/
theorem le_seriesMax {l : List ℤ} {x : ℤ} (hx : x ∈ l) : x ≤ seriesMax l := by
  cases l with
  | nil => cases hx
  | cons y ys =>
    rcases List.mem_cons.mp hx with rfl | hx
    · exact foldl_max_init ys x
    · exact foldl_max_mem ys y x hx

/-- The `ds` column of `_daily_series` is the distinct-date list. -/
theorem daily_series_fst (l : List Expense) :
    (daily_series l).map (fun r => r.1) = datesOf l := by
  simp [daily_series, List.map_map, Function.comp_def]

/-- Filtering the future frame down to dates strictly after the last
training date leaves exactly the `n` appended future days. -/
theorem future_filter (histDates : List ℤ) (n : ℕ) :
    (make_future_dataframe histDates n).filter
        (fun d => decide (seriesMax histDates < d)) =
      (List.range n).map (fun (i : ℕ) => seriesMax histDates + (i : ℤ) + 1) := by
  unfold make_future_dataframe
  rw [List.filter_append]
  have h1 : histDates.filter (fun d => decide (seriesMax histDates < d)) = [] := by
    refine List.filter_eq_nil_iff.mpr (fun a ha => ?_)
    simp [not_lt.mpr (le_seriesMax ha)]
  have h2 : ((List.range n).map (fun (i : ℕ) => seriesMax histDates + (i : ℤ) + 1)).filter
      (fun d => decide (seriesMax histDates < d)) =
      (List.range n).map (fun (i : ℕ) => seriesMax histDates + (i : ℤ) + 1) := by
    refine List.filter_eq_self.mpr (fun a ha => ?_)
    obtain ⟨i, -, rfl⟩ := List.mem_map.mp ha
    simp only [decide_eq_true_eq]
    omega
  rw [h1, h2, List.nil_append]

/-- C7: with at least the minimum 30 transactions in the window, the
forecast succeeds and returns exactly `FORECAST_DAYS = 30` points, one
per consecutive day (`last + 1, …, last + 30`), each dated strictly after
every observed transaction date of the input series. -/
theorem c7_thirty_points (pred : ℤ → ℚ × ℚ × ℚ) (now : Timestamp)
    (store : List Expense) (uid : ℤ)
    (h : MIN_DATA_POINTS ≤ (get_user_expenses store uid now 90).length) :
    (forecast_expenses_prophet pred now store uid).success = true ∧
    (forecast_expenses_prophet pred now store uid).forecasts.length = FORECAST_DAYS ∧
    ((forecast_expenses_prophet pred now store uid).forecasts.map (fun p => p.date)) =
      (List.range FORECAST_DAYS).map
        (fun (i : ℕ) => seriesMax (datesOf (get_user_expenses store uid now 90)) + (i : ℤ) + 1) ∧
    ∀ p ∈ (forecast_expenses_prophet pred now store uid).forecasts,
      ∀ e ∈ get_user_expenses store uid now 90,
        e.timestamp.date.toOrdinal < p.date := by
  have hnlt : ¬ (get_user_expenses store uid now 90).length < MIN_DATA_POINTS :=
    not_lt.mpr h
  have hout : (forecast_expenses_prophet pred now store uid).forecasts =
      ((List.range FORECAST_DAYS).map
        (fun (i : ℕ) => seriesMax (datesOf (get_user_expenses store uid now 90)) + (i : ℤ) + 1)).map
        (fun d => mkForecastPoint d (pred d)) := by
    simp only [forecast_expenses_prophet, if_neg hnlt]
    rw [List.filter_map, List.map_map]
    have hcomp : ((fun r : ℤ × ℚ × ℚ × ℚ => decide (seriesMax ((daily_series (get_user_expenses store uid now 90)).map (fun r => r.1)) < r.1)) ∘
        (fun d => (d, pred d))) = fun d => decide (seriesMax ((daily_series (get_user_expenses store uid now 90)).map (fun r => r.1)) < d) := rfl
    rw [hcomp, daily_series_fst, future_filter, List.map_map]
    rfl
  have hsucc : (forecast_expenses_prophet pred now store uid).success = true := by
    simp only [forecast_expenses_prophet, if_neg hnlt]
  refine ⟨hsucc, ?_, ?_, ?_⟩
  · rw [hout]
    simp [FORECAST_DAYS]
  · rw [hout, List.map_map]
    rfl
  · intro p hp e he
    rw [hout] at hp
    obtain ⟨d, hd, rfl⟩ := List.mem_map.mp hp
    obtain ⟨i, -, rfl⟩ := List.mem_map.mp hd
    have hle : e.timestamp.date.toOrdinal ≤
        seriesMax (datesOf (get_user_expenses store uid now 90)) :=
      le_seriesMax (List.mem_dedup.mpr (List.mem_map_of_mem _ he))
    simp only [mkForecastPoint]
    omega

/-- Witness for C7: the thirty-transaction store. -/
theorem c7_thirty_points_witness :
    (forecast_expenses_prophet c7Pred egNow c7Store 1).success = true ∧
    (forecast_expenses_prophet c7Pred egNow c7Store 1).forecasts.length = FORECAST_DAYS ∧
    (c7Exp 0).timestamp.date.toOrdinal < (⟨396, 1, 0, 2⟩ : ForecastPoint).date := by
  have hmain := c7_thirty_points c7Pred egNow c7Store 1 (by with_unfolding_all decide)
  exact ⟨hmain.1, hmain.2.1,
    hmain.2.2.2 ⟨396, 1, 0, 2⟩ (by with_unfolding_all decide) (c7Exp 0)
      (by with_unfolding_all decide)⟩

/-! ## Claim C9 -/

/-- On the scoring path (enough data, target present), the store after
`check_new_expense` is exactly the `update_anomaly_status` writeback with
the returned flag and score. -/
theorem check_writeback_eq (M : IFModel) (now : Timestamp) (store : List Expense)
    (uid eid : ℤ) (res : Bool × ℚ × String) (store' : List Expense)
    (hlen : ¬ (get_user_expenses store uid now 90).length < 10)
    (hne : ((get_user_expenses store uid now 90).filter
        (fun e => decide (e.id = eid))).isEmpty = false)
    (h : check_new_expense M now store uid eid = .ok (res, store')) :
    store' = update_anomaly_status store eid res.1 res.2.1 := by
  simp only [check_new_expense, if_neg hlen, hne, Bool.false_eq_true, if_false] at h
  cases hfit : scaler_fit_transform (prepare_features
      ((get_user_expenses store uid now 90).filter (fun e => decide (¬ e.id = eid)))) with
  | error e => rw [hfit] at h; cases h
  | ok pr =>
    obtain ⟨sc, Xs_hist⟩ := pr
    rw [hfit] at h
    simp only [] at h
    cases htr : sc.transform (prepare_features
        ((get_user_expenses store uid now 90).filter (fun e => decide (e.id = eid)))) with
    | error e => rw [htr] at h; cases h
    | ok Xs_new =>
      rw [htr] at h
      simp only [Except.ok.injEq, Prod.mk.injEq] at h
      obtain ⟨hres, hst⟩ := h
      subst hres
      subst hst
      rfl

/-- C9: when `check_new_expense` succeeds in scoring (enough data, target
present), the writeback touches only the target transaction id — every
row with a different id is returned unchanged, and every row with the
target id has exactly `is_anomaly` and `anomaly_score` replaced by the
returned values, all other fields kept. -/
theorem c9_writeback_frame (M : IFModel) (now : Timestamp) (store : List Expense)
    (uid eid : ℤ) (res : Bool × ℚ × String) (store' : List Expense)
    (hlen : ¬ (get_user_expenses store uid now 90).length < 10)
    (hne : ((get_user_expenses store uid now 90).filter
        (fun e => decide (e.id = eid))).isEmpty = false)
    (h : check_new_expense M now store uid eid = .ok (res, store')) :
    store'.length = store.length ∧
    (∀ i (hi : i < store.length) (hi' : i < store'.length),
      store[i].id ≠ eid → store'[i] = store[i]) ∧
    (∀ i (hi : i < store.length) (hi' : i < store'.length),
      store[i].id = eid → store'[i] =
        { store[i] with is_anomaly := res.1, anomaly_score := res.2.1 }) := by
  have hst := check_writeback_eq M now store uid eid res store' hlen hne h
  subst hst
  refine ⟨by simp [update_anomaly_status], ?_, ?_⟩
  · intro i hi hi' hid
    simp [update_anomaly_status, List.getElem_map, if_neg hid]
  · intro i hi hi' hid
    simp [update_anomaly_status, List.getElem_map, if_pos hid]

/-- Witness for C9: the concrete ten-transaction run writes the returned
`(false, 1/2)` into row id 10 only, leaving rows 1–9 untouched. -/
theorem c9_writeback_frame_witness :
    (update_anomaly_status egStore10 10 false (1 / 2)).length = egStore10.length ∧
    update_anomaly_status egStore10 10 false (1 / 2) =
      [egExp 1, egExp 2, egExp 3, egExp 4, egExp 5, egExp 6, egExp 7, egExp 8, egExp 9,
       { egExp 10 with is_anomaly := false, anomaly_score := 1 / 2 }] := by
  have hmain := c9_writeback_frame constModel egNow egStore10 1 10
    (false, 1 / 2, genericMsg) (update_anomaly_status egStore10 10 false (1 / 2))
    (by with_unfolding_all decide) (by with_unfolding_all decide)
    (by norm_num [check_new_expense, get_user_expenses, egStore10, egExp, egNow,
      prepare_features, featureRow, catsOf, paysOf, dayOfWeek, scaler_fit_transform,
      StandardScaler.transform, constModel, update_anomaly_status, explain,
      format2, floorQ, pad2, genericMsg, notEnoughMsg, notFoundMsg,
      Timestamp.absMinutes, Date.toOrdinal, monthDaysBefore, daysInMonth, isLeap])
  exact ⟨hmain.1, by norm_num [update_anomaly_status, egStore10, egExp]⟩

/-! ## Claim C1 -/

/-- `StandardScaler.fit_transform` on a nonempty matrix records the first
row's width and passes the matrix through. -/
theorem scaler_fit_transform_ne_nil {X : List (List ℚ)} (h : X ≠ []) :
    scaler_fit_transform X = .ok (⟨(X.headD []).length⟩, X) := by
  simp [scaler_fit_transform, h]

/-- `transform` succeeds when every row has the fitted width. -/
theorem transform_all_ok {n : ℕ} {X : List (List ℚ)}
    (h : ∀ r ∈ X, r.length = n) :
    StandardScaler.transform ⟨n⟩ X = .ok X := by
  simp only [StandardScaler.transform]
  rw [if_pos]
  exact List.all_eq_true.mpr (fun r hr => decide_eq_true (h r hr))

/-- `transform` raises when some row's width differs from the fitted
width. -/
theorem transform_mismatch {n : ℕ} {X : List (List ℚ)} {r : List ℚ}
    (hr : r ∈ X) (hrl : r.length ≠ n) :
    StandardScaler.transform ⟨n⟩ X =
      .error "X has a different number of features than during fitting" := by
  simp only [StandardScaler.transform]
  rw [if_neg]
  intro hall
  exact hrl (by simpa using List.all_eq_true.mp hall r hr)

/-- A nonempty transaction set yields a feature matrix of width at least
6: the 4 base columns plus at least one category and one payment-method
one-hot column. -/
theorem featureWidth_of_ne_nil {l : List Expense} (h : l ≠ []) : 6 ≤ featureWidth l := by
  have hc : catsOf l ≠ [] := by
    simp [catsOf, List.dedup_eq_nil, h]
  have hp : paysOf l ≠ [] := by
    simp [paysOf, List.dedup_eq_nil, h]
  have hc1 : 1 ≤ (catsOf l).length := List.length_pos.mpr hc
  have hp1 : 1 ≤ (paysOf l).length := List.length_pos.mpr hp
  simp only [featureWidth]
  omega

/-- Counterexample to C1 as stated: with a history whose one-hot
vocabulary has two categories (`egStoreMix`) while the single target row
contributes one, `check_new_expense` raises (the scaler's feature-count
validation) instead of returning a structured `(is_anomaly, score,
explanation)` value. -/
theorem c1_exception_counterexample :
    check_new_expense constModel egNow egStoreMix 1 10 =
      .error "X has a different number of features than during fitting" := by
  norm_num [check_new_expense, get_user_expenses, egStoreMix, egExp, egNow,
    prepare_features, featureRow, catsOf, paysOf, dayOfWeek, scaler_fit_transform,
    StandardScaler.transform, constModel,
    Timestamp.absMinutes, Date.toOrdinal, monthDaysBefore, daysInMonth, isLeap]
  with_unfolding_all decide

/-- C1 amended: past the two structured early returns (enough data,
target present), `check_new_expense` raises exactly when the feature
width of the history (excluding the target) differs from the feature
width of the target row — the one-hot vocabulary mismatch is surfaced as
an exception, not as a structured return.  (With duplicate-free ids the
history width is `4 + #categories + #payment methods` of the history and
the target width is 6; the degenerate empty-history case also raises, at
the scaler fit, and its width `4` likewise differs.) -/
theorem c1_mismatch_raises_iff (M : IFModel) (now : Timestamp) (store : List Expense)
    (uid eid : ℤ)
    (hlen : ¬ (get_user_expenses store uid now 90).length < 10)
    (hne : ((get_user_expenses store uid now 90).filter
        (fun e => decide (e.id = eid))).isEmpty = false) :
    (∃ msg, check_new_expense M now store uid eid = .error msg) ↔
      featureWidth ((get_user_expenses store uid now 90).filter
        (fun e => decide (¬ e.id = eid))) ≠
      featureWidth ((get_user_expenses store uid now 90).filter
        (fun e => decide (e.id = eid))) := by
  set df := get_user_expenses store uid now 90 with hdf
  set new_df := df.filter (fun e => decide (e.id = eid)) with hnewdf
  set hist := df.filter (fun e => decide (¬ e.id = eid)) with hhist
  have hnewne : new_df ≠ [] := by
    intro h0
    rw [h0] at hne
    simp at hne
  have hXnewne : prepare_features new_df ≠ [] := by
    intro h0
    exact hnewne (List.map_eq_nil_iff.mp h0)
  by_cases hh : hist = []
  · have hcheck : check_new_expense M now store uid eid =
        .error "Found array with 0 sample(s)" := by
      simp only [check_new_expense, ← hdf, if_neg hlen, ← hnewdf, hne,
        Bool.false_eq_true, if_false, ← hhist, hh]
      rfl
    have hw : featureWidth hist ≠ featureWidth new_df := by
      rw [hh]
      have h6 := featureWidth_of_ne_nil hnewne
      have h4 : featureWidth ([] : List Expense) = 4 := rfl
      omega
    exact iff_of_true ⟨_, hcheck⟩ hw
  · have hXhistne : prepare_features hist ≠ [] := by
      intro h0
      exact hh (List.map_eq_nil_iff.mp h0)
    have hfit : scaler_fit_transform (prepare_features hist) =
        .ok (⟨((prepare_features hist).headD []).length⟩, prepare_features hist) :=
      scaler_fit_transform_ne_nil hXhistne
    have hn : ((prepare_features hist).headD []).length = featureWidth hist :=
      headD_prepare_features_length hh
    by_cases hw : featureWidth new_df = featureWidth hist
    · have htr : StandardScaler.transform ⟨((prepare_features hist).headD []).length⟩
          (prepare_features new_df) = .ok (prepare_features new_df) :=
        transform_all_ok (fun r hr => by
          rw [mem_prepare_features_length hr, hn, hw])
      have hok : ∃ v, check_new_expense M now store uid eid = .ok v := by
        simp only [check_new_expense, ← hdf, if_neg hlen, ← hnewdf, hne,
          Bool.false_eq_true, if_false, ← hhist, hfit, htr]
        exact ⟨_, rfl⟩
      obtain ⟨v, hv⟩ := hok
      refine iff_of_false ?_ (fun hcon => hcon hw.symm)
      rintro ⟨msg, hmsg⟩
      rw [hv] at hmsg
      cases hmsg
    · obtain ⟨r0, t, hX⟩ := List.exists_cons_of_ne_nil hXnewne
      have hr0 : r0 ∈ prepare_features new_df := by
        rw [hX]
        exact List.mem_cons_self r0 t
      have htr : StandardScaler.transform ⟨((prepare_features hist).headD []).length⟩
          (prepare_features new_df) =
          .error "X has a different number of features than during fitting" :=
        transform_mismatch hr0 (by
          rw [mem_prepare_features_length hr0, hn]
          exact fun hcon => hw hcon)
      have hcheck : check_new_expense M now store uid eid =
          .error "X has a different number of features than during fitting" := by
        simp only [check_new_expense, ← hdf, if_neg hlen, ← hnewdf, hne,
          Bool.false_eq_true, if_false, ← hhist, hfit, htr]
      exact iff_of_true ⟨_, hcheck⟩ (fun hcon => hw hcon.symm)

/-- Witness for the amended C1 at the concrete mixed-vocabulary store. -/
theorem c1_mismatch_raises_iff_witness :
    (∃ msg, check_new_expense constModel egNow egStoreMix 1 10 = .error msg) ↔
      featureWidth ((get_user_expenses egStoreMix 1 egNow 90).filter
        (fun e => decide (¬ e.id = (10 : ℤ)))) ≠
      featureWidth ((get_user_expenses egStoreMix 1 egNow 90).filter
        (fun e => decide (e.id = (10 : ℤ)))) :=
  c1_mismatch_raises_iff constModel egNow egStoreMix 1 10
    (by with_unfolding_all decide) (by with_unfolding_all decide)
